import Mathlib

/-!
Verification of the credit/subscription gating model and the session manager
of the tutoring backend.  Definitions are shallow embeddings of:
  * the SQL function consume_credit and upgrade_to_pro
    (deploy_database_functions.py),
  * the Python gate check_and_consume_credit (agentic.py),
  * SubscriptionManager.upgrade_subscription / _calculate_end_date and
    has_pro_access (agentic.py),
  * the payment verification endpoints verify_payment (credit_system.py)
    and verify_qr_payment (credit_system.py),
  * SessionManager.get_session / add_message / get_conversation_context and
    the background sweep cleanup_expired_sessions (agentic.py).
Timestamps are abstracted as integers (days for subscription durations,
hours for session activity); the relational store is explicit state.
-/

namespace Spec2Proof

/-- Message roles: the MessageRole enum of agentic.py (system/user/assistant). -/
inductive Role where
  | system
  | user
  | assistant
deriving DecidableEq, Repr

/-- A conversation message (role + content; timestamps are irrelevant to the
claims about ordering and filtering). -/
structure Msg where
  role : Role
  content : String
deriving DecidableEq, Repr

/-- A pro_subscriptions row as read by the consume paths: the status string
and the optional expiry timestamp. -/
structure Subscription where
  status : String
  expiresAt : Option Int
deriving DecidableEq, Repr

/-- has_pro_access (agentic.py, SubscriptionManager): status is PRO and the
end date, when present, lies in the future. -/
def has_pro_access (now : Int) (sub : Option Subscription) : Bool :=
  match sub with
  | some s =>
      if s.status == "pro" then
        match s.expiresAt with
        | some e => now < e
        | none => true
      else false
  | none => false

/-- A daily_credits row for the current day. -/
structure CreditRecord where
  creditsUsed : Nat
  creditsLimit : Nat
deriving DecidableEq, Repr

/-- A credit_usage_logs row. -/
structure UsageLog where
  featureName : String
  creditsConsumed : Nat
deriving DecidableEq, Repr

/-- The store slice seen by the SQL function consume_credit for one user on
the current day: the subscription row, the optional daily_credits row, and
the usage log. -/
structure CreditState where
  subscription : Option Subscription
  todayRecord : Option CreditRecord
  usageLogs : List UsageLog
deriving DecidableEq, Repr

/-- Result row of the SQL function consume_credit. -/
structure ConsumeResult where
  success : Bool
  creditsRemaining : Int
  message : String
deriving DecidableEq, Repr

/-- The is_pro test used by both consume paths: a subscription row exists
with subscription_status = 'pro' (no expiry check). -/
def isProSub (sub : Option Subscription) : Bool :=
  match sub with
  | some s => s.status == "pro"
  | none => false

/-- is_pro for a CreditState. -/
def isProStatus (s : CreditState) : Bool :=
  isProSub s.subscription

/-- The SQL function consume_credit (deploy_database_functions.py, lines
78-143).  When no daily_credits row exists the function inserts (0,5) and
hard-sets the locals current_credits := 5 and is_pro := false, so control
falls through the pro branch and the insufficiency branch straight into the
debit branch: the fresh row is debited to (1,5), usage is logged with cost 1
and the call returns (true, 4).  With a row present: the pro branch only
logs, the guard current_credits <= 0 fails the call, otherwise credits_used
is incremented by one. -/
def consume_credit (s : CreditState) (featureName : String) : ConsumeResult × CreditState :=
  match s.todayRecord with
  | none =>
      let s0 : CreditState := { s with todayRecord := some ⟨0, 5⟩ }
      (⟨true, 4, "Credit consumed successfully"⟩,
       { s0 with todayRecord := some ⟨1, 5⟩,
                 usageLogs := s0.usageLogs ++ [⟨featureName, 1⟩] })
  | some r =>
      let currentCredits : Int := (r.creditsLimit : Int) - (r.creditsUsed : Int)
      if isProStatus s then
        (⟨true, currentCredits, "Pro user - unlimited access"⟩,
         { s with usageLogs := s.usageLogs ++ [⟨featureName, 0⟩] })
      else if currentCredits ≤ 0 then
        (⟨false, currentCredits, "No credits remaining"⟩, s)
      else
        (⟨true, currentCredits - 1, "Credit consumed successfully"⟩,
         { s with todayRecord := some ⟨r.creditsUsed + 1, r.creditsLimit⟩,
                  usageLogs := s.usageLogs ++ [⟨featureName, 1⟩] })

/-- The ledger invariant of the spec: credits_used never exceeds
credits_limit on the day's record. -/
def CreditInv (s : CreditState) : Prop :=
  match s.todayRecord with
  | some r => r.creditsUsed ≤ r.creditsLimit
  | none => True

instance (s : CreditState) : Decidable (CreditInv s) := by
  unfold CreditInv
  exact match s.todayRecord with
  | some _ => inferInstance
  | none => inferInstance

/-- Credits still available today (5 when the lazy record is absent). -/
def remainingCredits (s : CreditState) : Nat :=
  match s.todayRecord with
  | some r => r.creditsLimit - r.creditsUsed
  | none => 5

/-- Run a sequence of consume_credit calls, collecting the results. -/
def runConsumes (s : CreditState) : List String → List ConsumeResult × CreditState
  | [] => ([], s)
  | f :: fs =>
      ((consume_credit s f).1 :: (runConsumes (consume_credit s f).2 fs).1,
       (runConsumes (consume_credit s f).2 fs).2)

/-- Number of successful results. -/
def successCount (rs : List ConsumeResult) : Nat :=
  rs.countP (fun r => r.success)

lemma consume_credit_subscription_eq (s : CreditState) (f : String) :
    (consume_credit s f).2.subscription = s.subscription := by
  cases h : s.todayRecord with
  | none => simp [consume_credit, h]
  | some r =>
      simp only [consume_credit, h]
      split
      · rfl
      · split <;> rfl

lemma consume_credit_preserves_inv (s : CreditState) (f : String)
    (hInv : CreditInv s) : CreditInv (consume_credit s f).2 := by
  cases h : s.todayRecord with
  | none => simp [consume_credit, h, CreditInv]
  | some r =>
      have hr : r.creditsUsed ≤ r.creditsLimit := by
        unfold CreditInv at hInv
        rw [h] at hInv
        exact hInv
      simp only [consume_credit, h]
      split
      · unfold CreditInv
        simpa [h] using hr
      · split
        · unfold CreditInv
          simpa [h] using hr
        · rename_i hpos
          unfold CreditInv
          simp only []
          omega

lemma consume_credit_remaining_step (s : CreditState) (f : String)
    (hpro : isProStatus s = false) :
    (if (consume_credit s f).1.success
     then remainingCredits (consume_credit s f).2 + 1 ≤ remainingCredits s
     else remainingCredits (consume_credit s f).2 ≤ remainingCredits s) := by
  cases h : s.todayRecord with
  | none => simp [consume_credit, h, remainingCredits]
  | some r =>
      by_cases hc : (r.creditsLimit : Int) - (r.creditsUsed : Int) ≤ 0
      · simp [consume_credit, h, hpro, hc, remainingCredits]
      · simp [consume_credit, h, hpro, hc, remainingCredits]
        omega

lemma runConsumes_inv (feats : List String) (s : CreditState)
    (hInv : CreditInv s) : CreditInv (runConsumes s feats).2 := by
  induction feats generalizing s with
  | nil => simpa [runConsumes] using hInv
  | cons f fs ih =>
      simp only [runConsumes]
      exact ih _ (consume_credit_preserves_inv s f hInv)

lemma runConsumes_success_le (feats : List String) (s : CreditState)
    (hpro : isProStatus s = false) :
    successCount (runConsumes s feats).1 ≤ remainingCredits s := by
  induction feats generalizing s with
  | nil => simp [runConsumes, successCount]
  | cons f fs ih =>
      have hpro1 : isProStatus (consume_credit s f).2 = false := by
        unfold isProStatus
        rw [consume_credit_subscription_eq]
        exact hpro
      have hstep := consume_credit_remaining_step s f hpro
      have htail := ih (consume_credit s f).2 hpro1
      simp only [runConsumes, successCount, List.countP_cons] at *
      by_cases hs : (consume_credit s f).1.success
      · simp only [hs, if_pos] at hstep
        simp [hs]
        omega
      · simp only [hs, if_neg, Bool.false_eq_true, not_false_iff] at hstep
        simp [hs]
        omega

/-- A pro_features row: whether the feature needs Pro access and its credit
cost. -/
structure ProFeature where
  requiresPro : Bool
  creditsRequired : Nat
deriving DecidableEq, Repr

/-- The store slice seen by the Python gate check_and_consume_credit, plus
two failure switches: dbConnected models get_db_connection returning a
connection, storeRaises models any exception raised by the store during the
body (caught by the blanket except clause). -/
structure GateState where
  dbConnected : Bool
  storeRaises : Bool
  subscription : Option Subscription
  proFeatures : List (String × ProFeature)
  todayRecord : Option CreditRecord
  usageLogs : List UsageLog
deriving DecidableEq, Repr

/-- The (can_use, message, credits_remaining) tuple the gate returns. -/
structure GateResult where
  canUse : Bool
  message : String
  creditsRemaining : Int
deriving DecidableEq, Repr

/-- The Python gate check_and_consume_credit (agentic.py, lines 53-132):
no connection or a store error returns a denial; a subscription row with
status 'pro' (no expiry check) is allowed with the 999 sentinel; a feature
absent from pro_features or with requires_pro false is allowed with the 999
sentinel; otherwise the daily record is lazily created as (0,5), the call
fails when fewer than credits_required remain, and otherwise credits_used is
incremented by credits_required and the usage logged. -/
def check_and_consume_credit (s : GateState) (featureName : String) : GateResult × GateState :=
  if s.dbConnected = false then
    (⟨false, "Database connection unavailable", 0⟩, s)
  else if s.storeRaises then
    (⟨false, "Error checking credits", 0⟩, s)
  else if isProSub s.subscription then
    (⟨true, "Pro user - unlimited access", 999⟩, s)
  else
    match s.proFeatures.lookup featureName with
    | none => (⟨true, "Free feature - no credits required", 999⟩, s)
    | some fi =>
        if fi.requiresPro = false then
          (⟨true, "Free feature - no credits required", 999⟩, s)
        else
          match s.todayRecord with
          | none =>
              -- lazy insert of (0,5); remaining = 5
              if (5 : Int) < (fi.creditsRequired : Int) then
                (⟨false, "Insufficient credits", 5⟩,
                 { s with todayRecord := some ⟨0, 5⟩ })
              else
                (⟨true, "Credit consumed successfully", (5 : Int) - (fi.creditsRequired : Int)⟩,
                 { s with todayRecord := some ⟨0 + fi.creditsRequired, 5⟩,
                          usageLogs := s.usageLogs ++ [⟨featureName, fi.creditsRequired⟩] })
          | some r =>
              let creditsRemaining : Int := (r.creditsLimit : Int) - (r.creditsUsed : Int)
              if creditsRemaining < (fi.creditsRequired : Int) then
                (⟨false, "Insufficient credits", creditsRemaining⟩, s)
              else
                (⟨true, "Credit consumed successfully", creditsRemaining - (fi.creditsRequired : Int)⟩,
                 { s with todayRecord := some ⟨r.creditsUsed + fi.creditsRequired, r.creditsLimit⟩,
                          usageLogs := s.usageLogs ++ [⟨featureName, fi.creditsRequired⟩] })

/-- payment_transactions statuses. -/
inductive PaymentStatus where
  | pending
  | completed
  | failed
  | expired
  | refunded
deriving DecidableEq, Repr

/-- A pro_subscriptions row as written by the upgrade paths. -/
structure ProSub where
  status : String
  tier : String
  subscribedAt : Int
  expiresAt : Int
  paymentId : Option String
deriving DecidableEq, Repr

/-- A payment_transactions row (fields used by verify_payment). -/
structure Payment where
  amount : Int
  currency : String
  status : PaymentStatus
deriving DecidableEq, Repr

/-- Store slice for payment verification: the payment row addressed by the
payment_id and the user's pro_subscriptions row. -/
structure PayState where
  payment : Option Payment
  subscription : Option ProSub
deriving DecidableEq, Repr

/-- Outcome of a verification endpoint: a success body or an HTTPException. -/
inductive VerifyOutcome where
  | ok (message : String)
  | httpError (code : Nat)
deriving DecidableEq, Repr

/-- The SQL function upgrade_to_pro (deploy_database_functions.py, lines
206-245): upserts the pro_subscriptions row to status 'pro', tier
'pro_monthly', subscribed_at = now, expires_at = now + 1 month (30 days
here), and marks the payment_transactions row completed. -/
def upgrade_to_pro (now : Int) (paymentId : String) (s : PayState) : PayState :=
  { payment := s.payment.map (fun p => { p with status := PaymentStatus.completed }),
    subscription := some ⟨"pro", "pro_monthly", now, now + 30, some paymentId⟩ }

/-- verify_payment (credit_system.py, lines 354-393): a missing payment is a
404; an already completed payment returns success without touching the
subscription; otherwise upgrade_to_pro runs and success is returned. -/
def verify_payment (now : Int) (paymentId : String) (s : PayState) : VerifyOutcome × PayState :=
  match s.payment with
  | none => (VerifyOutcome.httpError 404, s)
  | some p =>
      if p.status = PaymentStatus.completed then
        (VerifyOutcome.ok "Payment already processed", s)
      else
        (VerifyOutcome.ok "Successfully upgraded to Pro", upgrade_to_pro now paymentId s)

/-- A payment_qr_codes row (fields used by verify_qr_payment). -/
structure QRPayment where
  tier : String
  status : PaymentStatus
  expiresAt : Int
deriving DecidableEq, Repr

/-- Store slice for QR payment verification. -/
structure QRState where
  payment : Option QRPayment
  subscription : Option ProSub
deriving DecidableEq, Repr

/-- Expiry interval picked by verify_qr_payment: '1 month' for pro_monthly,
'1 year' for pro_yearly, '1 year' as the default fallback (in days). -/
def qrExpiryDays (tier : String) : Int :=
  if tier == "pro_monthly" then 30
  else if tier == "pro_yearly" then 365
  else 365

/-- verify_qr_payment (credit_system.py, lines 909-980): the lookup filters
on status = 'pending', so a completed (or otherwise non-pending) payment is
reported as not found with success false; an expired pending payment fails;
otherwise the payment is marked completed and the subscription upserted to
'pro' with expires_at = now + interval(tier). -/
def verify_qr_payment (now : Int) (s : QRState) : (Bool × String) × QRState :=
  match s.payment with
  | none => ((false, "Payment not found or already processed"), s)
  | some p =>
      if p.status ≠ PaymentStatus.pending then
        ((false, "Payment not found or already processed"), s)
      else if p.expiresAt < now then
        ((false, "Payment has expired"), s)
      else
        ((true, "Payment verified and subscription upgraded successfully"),
         { payment := some { p with status := PaymentStatus.completed },
           subscription := some ⟨"pro", p.tier, now, now + qrExpiryDays p.tier, none⟩ })

/-- Subscription tiers (agentic.py SubscriptionTier). -/
inductive SubscriptionTier where
  | free
  | proMonthly
  | proYearly
  | proLifetime
deriving DecidableEq, Repr

/-- _calculate_end_date (agentic.py, lines 2286-2296): 30 days for monthly,
365 for yearly, 36500 (100 years) for lifetime, 30 days otherwise. -/
def calculate_end_date (now : Int) (tier : SubscriptionTier) : Int :=
  match tier with
  | SubscriptionTier.proMonthly => now + 30
  | SubscriptionTier.proYearly => now + 365
  | SubscriptionTier.proLifetime => now + 36500
  | SubscriptionTier.free => now + 30

/-- A user_subscriptions row as updated by upgrade_subscription. -/
structure UserSubscription where
  status : String
  tier : SubscriptionTier
  subscriptionStartDate : Int
  subscriptionEndDate : Int
  paymentId : Option String
  promoCode : Option String
deriving DecidableEq, Repr

/-- SubscriptionManager.upgrade_subscription (agentic.py, lines 2248-2284):
an UPDATE keyed on user_id, so an absent row is untouched; an existing row
gets status 'pro', the requested tier, start date now and end date
calculate_end_date now tier. -/
def upgrade_subscription (now : Int) (tier : SubscriptionTier)
    (paymentId promoCode : Option String)
    (row : Option UserSubscription) : Option UserSubscription :=
  row.map fun old =>
    { old with
      status := "pro",
      tier := tier,
      subscriptionStartDate := now,
      subscriptionEndDate := calculate_end_date now tier,
      paymentId := paymentId,
      promoCode := promoCode }

/-- A study_sessions row: id, the serialized message log, last_activity
(hours). -/
structure StudySession where
  sessionId : String
  messages : List Msg
  lastActivity : Int
deriving DecidableEq, Repr

/-- SessionManager.get_session (agentic.py, lines 461-510): fetch the row by
session_id, none when absent. -/
def get_session (store : List StudySession) (sid : String) : Option StudySession :=
  store.find? (fun s => s.sessionId == sid)

/-- MAX_SESSION_DURATION = 24 hours (agentic.py, line 160). -/
def MAX_SESSION_DURATION : Int := 24

/-- cleanup_expired_sessions (agentic.py, lines 3624-3660), one pass of the
hourly sweep: collect the session_ids whose last_activity is older than
now - 24h, then delete exactly the rows with those ids. -/
def cleanup_expired_sessions (now : Int) (store : List StudySession) : List StudySession :=
  let cutoff := now - MAX_SESSION_DURATION
  let expired := (store.filter (fun s => s.lastActivity < cutoff)).map (fun s => s.sessionId)
  store.filter (fun s => !(expired.contains s.sessionId))

/-- SessionManager.add_message (agentic.py, lines 558-615): load the session;
when it is absent, log and return without writing anything; otherwise append
the message to the log and persist it together with a fresh last_activity. -/
def add_message (now : Int) (store : List StudySession) (sid : String)
    (role : Role) (content : String) : List StudySession :=
  match get_session store sid with
  | none => store
  | some sess =>
      let updated := { sess with
        messages := sess.messages ++ [⟨role, content⟩],
        lastActivity := now }
      store.map (fun s => if s.sessionId == sid then updated else s)

/-- The message-window logic of get_conversation_context: Python slices
messages[-max_messages:] first (guarded by len > max_messages) and only then
filters the slice down to user/assistant roles.  Python's negative slice at
max_messages = 0 is messages[-0:] = messages[0:], the whole list, so the
guarded branch keeps everything in that case. -/
def context_core (messages : List Msg) (maxMessages : Nat) : List Msg :=
  let msgs :=
    if messages.length > maxMessages then
      if maxMessages = 0 then messages
      else messages.drop (messages.length - maxMessages)
    else messages
  msgs.filter (fun m => m.role == Role.user || m.role == Role.assistant)

/-- SessionManager.get_conversation_context (agentic.py, lines 617-645):
an absent session yields []; otherwise the windowed-and-filtered log. -/
def get_conversation_context (store : List StudySession) (sid : String)
    (maxMessages : Nat) : List Msg :=
  match get_session store sid with
  | none => []
  | some sess => context_core sess.messages maxMessages

/-- Written from the spec sentence for C6 (refinement comparison only):
return the most recent maxMessages non-system messages, preserving order. -/
def spec_get_context (messages : List Msg) (maxMessages : Nat) : List Msg :=
  let nonSystem := messages.filter (fun m => m.role != Role.system)
  nonSystem.drop (nonSystem.length - maxMessages)

/-- C1: for every user and day, credits_used <= credits_limit is preserved by
any sequence of consume_credit calls, and for a user without PRO status a
state with r credits remaining admits at most r successful consume calls in
any further sequence. -/
theorem consume_credit_cap_invariant (s : CreditState) (feats : List String)
    (hInv : CreditInv s) :
    CreditInv (runConsumes s feats).2 ∧
    (isProStatus s = false →
      successCount (runConsumes s feats).1 ≤ remainingCredits s) :=
  ⟨runConsumes_inv feats s hInv, fun hpro => runConsumes_success_le feats s hpro⟩

/-- Witness for C1: from (used,limit) = (3,5), three consume calls keep the
invariant and at most 2 = 5-3 of them succeed. -/
theorem consume_credit_cap_invariant_witness :
    CreditInv ⟨none, some ⟨3, 5⟩, []⟩ ∧
    (CreditInv (runConsumes ⟨none, some ⟨3, 5⟩, []⟩ ["quiz", "quiz", "quiz"]).2 ∧
     (isProStatus ⟨none, some ⟨3, 5⟩, []⟩ = false →
       successCount (runConsumes ⟨none, some ⟨3, 5⟩, []⟩ ["quiz", "quiz", "quiz"]).1 ≤
         remainingCredits ⟨none, some ⟨3, 5⟩, []⟩)) :=
  ⟨by decide, consume_credit_cap_invariant ⟨none, some ⟨3, 5⟩, []⟩ ["quiz", "quiz", "quiz"] (by decide)⟩

/-- C2 (code bug): a user with an active pro subscription (status 'pro',
expiry in the future) who has no daily_credits row yet is debited by the SQL
consume_credit: the no-record branch hard-sets is_pro := false, so the fresh
record ends at credits_used = 1 with a cost-1 usage log entry, although the
claim (and the function's own pro branch) says the ledger is never debited
for a pro user. -/
theorem consume_credit_debits_active_pro_user_on_fresh_day :
    has_pro_access 100 (some ⟨"pro", some 1000⟩) = true ∧
    (consume_credit ⟨some ⟨"pro", some 1000⟩, none, []⟩ "quiz").1.success = true ∧
    (consume_credit ⟨some ⟨"pro", some 1000⟩, none, []⟩ "quiz").2.todayRecord = some ⟨1, 5⟩ ∧
    (consume_credit ⟨some ⟨"pro", some 1000⟩, none, []⟩ "quiz").2.usageLogs = [⟨"quiz", 1⟩] := by
  decide

/-- C3 counterexample: a user whose subscription row still has status 'pro'
but whose expires_at (0) is in the past (now = 100) and whose record is at
the cap (used = limit = 5) still gets success = true from consume_credit:
the consume path never reads expires_at, so the claim's last sentence fails. -/
theorem consume_credit_expired_pro_bypasses_cap :
    (0 : Int) < 100 ∧
    has_pro_access 100 (some ⟨"pro", some 0⟩) = false ∧
    (consume_credit ⟨some ⟨"pro", some 0⟩, some ⟨5, 5⟩, []⟩ "quiz").1.success = true := by
  decide

/-- C3 (amended): for a user whose subscription row does not have status
'pro', consume at the cap fails with remaining 0 and an unchanged state, and
consume below the cap debits exactly one credit returning limit-used-1; a
user whose row has status 'pro' gets success with an undebited record
regardless of expires_at, which the consume path never reads. -/
theorem consume_credit_cap_behavior (s : CreditState) (f : String) (r : CreditRecord)
    (hrec : s.todayRecord = some r) :
    (isProStatus s = false → r.creditsUsed ≤ r.creditsLimit →
      ((r.creditsLimit ≤ r.creditsUsed →
          (consume_credit s f).1.success = false ∧
          (consume_credit s f).1.creditsRemaining = 0 ∧
          (consume_credit s f).2 = s) ∧
       (r.creditsUsed < r.creditsLimit →
          (consume_credit s f).1.success = true ∧
          (consume_credit s f).1.creditsRemaining
            = (r.creditsLimit : Int) - (r.creditsUsed : Int) - 1 ∧
          (consume_credit s f).2.todayRecord = some ⟨r.creditsUsed + 1, r.creditsLimit⟩))) ∧
    (isProStatus s = true →
      (consume_credit s f).1.success = true ∧
      (consume_credit s f).2.todayRecord = some r) := by
  constructor
  · intro hpro hle
    constructor
    · intro hge
      have h0 : (r.creditsLimit : Int) - (r.creditsUsed : Int) ≤ 0 := by omega
      refine ⟨?_, ?_, ?_⟩ <;> simp [consume_credit, hrec, hpro, h0]
      omega
    · intro hlt
      have h0 : ¬ ((r.creditsLimit : Int) - (r.creditsUsed : Int) ≤ 0) := by omega
      refine ⟨?_, ?_, ?_⟩ <;> simp [consume_credit, hrec, hpro, h0]
  · intro hpro
    constructor <;> simp [consume_credit, hrec, hpro]

/-- Witness for C3 (amended): at (used,limit) = (5,5) the call fails with
remaining 0; at (4,5) it succeeds leaving (5,5). -/
theorem consume_credit_cap_behavior_witness :
    (consume_credit ⟨none, some ⟨5, 5⟩, []⟩ "quiz").1.success = false ∧
    (consume_credit ⟨none, some ⟨4, 5⟩, []⟩ "quiz").2.todayRecord = some ⟨5, 5⟩ :=
  ⟨((consume_credit_cap_behavior ⟨none, some ⟨5, 5⟩, []⟩ "quiz" ⟨5, 5⟩ rfl).1
      (by decide) (by decide)).1 (by decide) |>.1,
   ((consume_credit_cap_behavior ⟨none, some ⟨4, 5⟩, []⟩ "quiz" ⟨4, 5⟩ rfl).1
      (by decide) (by decide)).2 (by decide) |>.2.2⟩

/-- C4 counterexample: a QR payment completed by a first verify_qr_payment
call yields success = false ("Payment not found or already processed") on the
second call, not the success the claim requires; the state is not changed
again. -/
theorem verify_qr_payment_repeat_returns_failure :
    (verify_qr_payment 10 ⟨some ⟨"pro_monthly", PaymentStatus.pending, 50⟩, none⟩).1.1 = true ∧
    (verify_qr_payment 20 (verify_qr_payment 10
        ⟨some ⟨"pro_monthly", PaymentStatus.pending, 50⟩, none⟩).2).1
      = (false, "Payment not found or already processed") ∧
    (verify_qr_payment 20 (verify_qr_payment 10
        ⟨some ⟨"pro_monthly", PaymentStatus.pending, 50⟩, none⟩).2).2
      = (verify_qr_payment 10 ⟨some ⟨"pro_monthly", PaymentStatus.pending, 50⟩, none⟩).2 := by
  decide

/-- C4 (amended): re-verifying a payment completed by a first call applies
the upgrade exactly once on both paths and leaves the state untouched, but
only verify_payment reports the second call as success ("Payment already
processed"); verify_qr_payment reports success = false ("Payment not found
or already processed"). -/
theorem payment_verification_applied_once
    (now1 now2 : Int) (pid : String) (p : Payment) (sub : Option ProSub)
    (q : QRPayment) (sub2 : Option ProSub)
    (hp : p.status = PaymentStatus.pending)
    (hq : q.status = PaymentStatus.pending) (hqe : ¬ q.expiresAt < now1) :
    ((verify_payment now1 pid ⟨some p, sub⟩).1
        = VerifyOutcome.ok "Successfully upgraded to Pro" ∧
     verify_payment now2 pid (verify_payment now1 pid ⟨some p, sub⟩).2
        = (VerifyOutcome.ok "Payment already processed",
           (verify_payment now1 pid ⟨some p, sub⟩).2)) ∧
    ((verify_qr_payment now1 ⟨some q, sub2⟩).1.1 = true ∧
     verify_qr_payment now2 (verify_qr_payment now1 ⟨some q, sub2⟩).2
        = ((false, "Payment not found or already processed"),
           (verify_qr_payment now1 ⟨some q, sub2⟩).2)) := by
  constructor
  · constructor
    · simp [verify_payment, hp]
    · simp [verify_payment, upgrade_to_pro, hp]
  · constructor
    · simp [verify_qr_payment, hq, hqe]
    · simp [verify_qr_payment, hq, hqe]

/-- Witness for C4 (amended): a concrete pending payment and a concrete
pending unexpired QR payment. -/
theorem payment_verification_applied_once_witness :
    (verify_payment 10 "pay_1" ⟨some ⟨99, "INR", PaymentStatus.pending⟩, none⟩).1
      = VerifyOutcome.ok "Successfully upgraded to Pro" ∧
    (verify_qr_payment 10 ⟨some ⟨"pro_monthly", PaymentStatus.pending, 50⟩, none⟩).1.1 = true :=
  ⟨(payment_verification_applied_once 10 20 "pay_1" ⟨99, "INR", PaymentStatus.pending⟩ none
      ⟨"pro_monthly", PaymentStatus.pending, 50⟩ none rfl rfl (by decide)).1.1,
   (payment_verification_applied_once 10 20 "pay_1" ⟨99, "INR", PaymentStatus.pending⟩ none
      ⟨"pro_monthly", PaymentStatus.pending, 50⟩ none rfl rfl (by decide)).2.1⟩

/-- C5: upgrading an existing subscription row at time t sets status 'pro',
the requested tier, start t and end t + duration(tier) with durations 30,
365 and 36500 days (about 100 years) for monthly, yearly and lifetime, and a
repeated upgrade at time t2 resets the window from t2. -/
theorem upgrade_subscription_resets_pro_window
    (t t2 : Int) (tier tier2 : SubscriptionTier) (old : UserSubscription)
    (pid pc pid2 pc2 : Option String) :
    upgrade_subscription t tier pid pc (some old)
      = some ⟨"pro", tier, t, calculate_end_date t tier, pid, pc⟩ ∧
    calculate_end_date t SubscriptionTier.proMonthly = t + 30 ∧
    calculate_end_date t SubscriptionTier.proYearly = t + 365 ∧
    calculate_end_date t SubscriptionTier.proLifetime = t + 36500 ∧
    upgrade_subscription t2 tier2 pid2 pc2 (upgrade_subscription t tier pid pc (some old))
      = some ⟨"pro", tier2, t2, calculate_end_date t2 tier2, pid2, pc2⟩ :=
  ⟨rfl, rfl, rfl, rfl, rfl⟩

/-- C6 counterexample: with messages [user m1, system, user m2, user m3] and
max_messages = 3, the code slices the last 3 messages first and then filters,
returning only [m2, m3], while the claim's "most recent 3 non-system
messages" are [m1, m2, m3]. -/
theorem get_context_window_mismatch :
    get_conversation_context
        [⟨"s1", [⟨Role.user, "m1"⟩, ⟨Role.system, "sys"⟩,
                 ⟨Role.user, "m2"⟩, ⟨Role.user, "m3"⟩], 0⟩] "s1" 3
      = [⟨Role.user, "m2"⟩, ⟨Role.user, "m3"⟩] ∧
    spec_get_context
        [⟨Role.user, "m1"⟩, ⟨Role.system, "sys"⟩,
         ⟨Role.user, "m2"⟩, ⟨Role.user, "m3"⟩] 3
      = [⟨Role.user, "m1"⟩, ⟨Role.user, "m2"⟩, ⟨Role.user, "m3"⟩] ∧
    get_conversation_context
        [⟨"s1", [⟨Role.user, "m1"⟩, ⟨Role.system, "sys"⟩,
                 ⟨Role.user, "m2"⟩, ⟨Role.user, "m3"⟩], 0⟩] "s1" 3
      ≠ spec_get_context
          [⟨Role.user, "m1"⟩, ⟨Role.system, "sys"⟩,
           ⟨Role.user, "m2"⟩, ⟨Role.user, "m3"⟩] 3 := by
  decide

/-- C6 (amended): for k >= 1 get_context returns, in insertion order,
exactly the non-system messages among the most recent k messages of the
session (so system messages inside the window shrink the result below k even
when older non-system messages exist); at k = 0 Python's messages[-0:] slice
is the whole log, so all non-system messages are returned; system messages
never appear and the result is an order-preserving subsequence of the log. -/
theorem get_context_recent_window_filter (store : List StudySession)
    (sess : StudySession) (k : Nat)
    (hfound : get_session store sess.sessionId = some sess) :
    get_conversation_context store sess.sessionId k
      = (if k = 0 then sess.messages
         else sess.messages.drop (sess.messages.length - k)).filter
          (fun m => m.role != Role.system) ∧
    (∀ m ∈ get_conversation_context store sess.sessionId k, m.role ≠ Role.system) ∧
    (get_conversation_context store sess.sessionId k).Sublist sess.messages := by
  have hctx : get_conversation_context store sess.sessionId k
      = context_core sess.messages k := by
    simp [get_conversation_context, hfound]
  have hfc : ∀ (l : List Msg),
      l.filter (fun m => m.role == Role.user || m.role == Role.assistant)
        = l.filter (fun m => m.role != Role.system) := by
    intro l
    apply List.filter_congr
    intro m _
    cases m.role <;> rfl
  have hcore : context_core sess.messages k
      = (if k = 0 then sess.messages
         else sess.messages.drop (sess.messages.length - k)).filter
          (fun m => m.role != Role.system) := by
    unfold context_core
    by_cases hk : k = 0
    · subst hk
      simp only [if_pos rfl]
      by_cases h : sess.messages.length > 0
      · simp only [if_pos h]
        exact hfc _
      · simp only [if_neg h]
        exact hfc _
    · simp only [if_neg hk]
      by_cases h : sess.messages.length > k
      · simp only [if_pos h, if_neg hk]
        exact hfc _
      · have h0 : sess.messages.length - k = 0 := by omega
        simp only [if_neg h, h0, List.drop_zero]
        exact hfc _
  refine ⟨hctx.trans hcore, ?_, ?_⟩
  · intro m hm
    rw [hctx.trans hcore] at hm
    have hmem := List.of_mem_filter hm
    simpa using hmem
  · rw [hctx.trans hcore]
    by_cases hk : k = 0
    · simp only [hk, if_pos rfl]
      exact List.filter_sublist _
    · simp only [if_neg hk]
      exact (List.filter_sublist _).trans (List.drop_sublist _ _)

/-- Witness for C6 (amended): a two-message session whose context is a
subsequence of its log. -/
theorem get_context_recent_window_filter_witness :
    (get_conversation_context
        [⟨"s1", [⟨Role.user, "hi"⟩, ⟨Role.system, "sys"⟩], 0⟩] "s1" 10).Sublist
      [⟨Role.user, "hi"⟩, ⟨Role.system, "sys"⟩] :=
  (get_context_recent_window_filter
      [⟨"s1", [⟨Role.user, "hi"⟩, ⟨Role.system, "sys"⟩], 0⟩]
      ⟨"s1", [⟨Role.user, "hi"⟩, ⟨Role.system, "sys"⟩], 0⟩ 10 (by decide)).2.2

/-- C7: after one pass of the sweep no session older than 24h remains,
get_session on any id that had a stale row reports none, and (with distinct
session ids) every session inside the 24h window survives. -/
theorem cleanup_expired_sessions_reaps_stale (now : Int) (store : List StudySession) :
    (∀ r ∈ cleanup_expired_sessions now store,
        ¬ (r.lastActivity < now - MAX_SESSION_DURATION)) ∧
    (∀ sid, (∃ r, r ∈ store ∧ r.sessionId = sid ∧
              r.lastActivity < now - MAX_SESSION_DURATION) →
        get_session (cleanup_expired_sessions now store) sid = none) ∧
    ((store.map (fun s => s.sessionId)).Nodup →
      ∀ r ∈ store, ¬ (r.lastActivity < now - MAX_SESSION_DURATION) →
        r ∈ cleanup_expired_sessions now store) := by
  refine ⟨?_, ?_, ?_⟩
  · intro r hr hstale
    have hr2 := List.mem_filter.mp hr
    have hin : r.sessionId ∈
        ((store.filter (fun s => s.lastActivity < now - MAX_SESSION_DURATION)).map
          (fun s => s.sessionId)) :=
      List.mem_map.mpr ⟨r, List.mem_filter.mpr ⟨hr2.1, by simpa using hstale⟩, rfl⟩
    have := hr2.2
    rw [Bool.not_eq_true'] at this
    rw [← List.elem_iff] at hin
    simp [List.contains] at this
    exact absurd hin (by simpa using this)
  · intro sid hex
    obtain ⟨r0, hr0mem, hr0sid, hr0stale⟩ := hex
    unfold get_session
    rw [List.find?_eq_none]
    intro x hx
    have hx2 := List.mem_filter.mp hx
    intro hbeq
    have hsid : x.sessionId = sid := by simpa using hbeq
    have hin : x.sessionId ∈
        ((store.filter (fun s => s.lastActivity < now - MAX_SESSION_DURATION)).map
          (fun s => s.sessionId)) := by
      refine List.mem_map.mpr ⟨r0, List.mem_filter.mpr ⟨hr0mem, by simpa using hr0stale⟩, ?_⟩
      rw [hr0sid, hsid]
    have := hx2.2
    rw [Bool.not_eq_true'] at this
    rw [← List.elem_iff] at hin
    simp [List.contains] at this
    exact absurd hin (by simpa using this)
  · intro hnd r hr hfresh
    refine List.mem_filter.mpr ⟨hr, ?_⟩
    rw [Bool.not_eq_true']
    by_contra hcon
    have hcon2 : ((store.filter (fun s => s.lastActivity < now - MAX_SESSION_DURATION)).map
        (fun s => s.sessionId)).contains r.sessionId = true := by
      cases hc : ((store.filter (fun s => s.lastActivity < now - MAX_SESSION_DURATION)).map
          (fun s => s.sessionId)).contains r.sessionId
      · exact absurd hc hcon
      · rfl
    have hin : r.sessionId ∈
        ((store.filter (fun s => s.lastActivity < now - MAX_SESSION_DURATION)).map
          (fun s => s.sessionId)) := by
      rw [← List.elem_iff]
      simpa [List.contains] using hcon2
    obtain ⟨r2, hr2mem, hr2sid⟩ := List.mem_map.mp hin
    have hr2f := List.mem_filter.mp hr2mem
    have : r2 = r :=
      List.inj_on_of_nodup_map hnd hr2f.1 hr hr2sid
    rw [this] at hr2f
    exact hfresh (by simpa using hr2f.2)

/-- Witness for C7: a stale session (activity 0, now 100) is gone and
unfindable after the sweep; a fresh one (activity 90) survives. -/
theorem cleanup_expired_sessions_reaps_stale_witness :
    get_session (cleanup_expired_sessions 100 [⟨"old", [], 0⟩, ⟨"new", [], 90⟩]) "old" = none ∧
    (⟨"new", [], 90⟩ : StudySession) ∈
      cleanup_expired_sessions 100 [⟨"old", [], 0⟩, ⟨"new", [], 90⟩] :=
  ⟨(cleanup_expired_sessions_reaps_stale 100 [⟨"old", [], 0⟩, ⟨"new", [], 90⟩]).2.1 "old"
      ⟨⟨"old", [], 0⟩, by decide, rfl, by decide⟩,
   (cleanup_expired_sessions_reaps_stale 100 [⟨"old", [], 0⟩, ⟨"new", [], 90⟩]).2.2
      (by decide) ⟨"new", [], 90⟩ (by decide) (by decide)⟩

/-- C8: the gate fails closed: with no store connection, or with any store
error during the check (the blanket except path), check_and_consume_credit
denies. -/
theorem check_and_consume_credit_fails_closed (s : GateState) (f : String)
    (h : s.dbConnected = false ∨ s.storeRaises = true) :
    (check_and_consume_credit s f).1.canUse = false := by
  rcases h with h | h
  · simp [check_and_consume_credit, h]
  · cases hdb : s.dbConnected <;> simp [check_and_consume_credit, hdb, h]

/-- Witness for C8: a disconnected store and a raising store both deny. -/
theorem check_and_consume_credit_fails_closed_witness :
    (check_and_consume_credit ⟨false, false, none, [], none, []⟩ "quiz").1.canUse = false ∧
    (check_and_consume_credit ⟨true, true, none, [], none, []⟩ "quiz").1.canUse = false :=
  ⟨check_and_consume_credit_fails_closed ⟨false, false, none, [], none, []⟩ "quiz" (Or.inl rfl),
   check_and_consume_credit_fails_closed ⟨true, true, none, [], none, []⟩ "quiz" (Or.inr rfl)⟩

/-- C9: with a reachable, non-raising store, a feature that has no
pro_features row, or whose requires_pro flag is false, is allowed for any
user with the 999 sentinel and the state (ledger included) unchanged. -/
theorem check_and_consume_credit_unregistered_feature (s : GateState) (f : String)
    (hdb : s.dbConnected = true) (hok : s.storeRaises = false)
    (hfeat : s.proFeatures.lookup f = none ∨
      ∃ fi, s.proFeatures.lookup f = some fi ∧ fi.requiresPro = false) :
    (check_and_consume_credit s f).1.canUse = true ∧
    (check_and_consume_credit s f).1.creditsRemaining = 999 ∧
    (check_and_consume_credit s f).2 = s := by
  by_cases hpro : isProSub s.subscription
  · refine ⟨?_, ?_, ?_⟩ <;> simp [check_and_consume_credit, hdb, hok, hpro]
  · rcases hfeat with hnone | ⟨fi, hsome, hreq⟩
    · refine ⟨?_, ?_, ?_⟩ <;> simp [check_and_consume_credit, hdb, hok, hpro, hnone]
    · refine ⟨?_, ?_, ?_⟩ <;> simp [check_and_consume_credit, hdb, hok, hpro, hsome, hreq]

/-- Witness for C9: a feature missing from pro_features and one with
requires_pro = false both pass for a free user at the cap, untouched state. -/
theorem check_and_consume_credit_unregistered_feature_witness :
    (check_and_consume_credit ⟨true, false, none, [], some ⟨5, 5⟩, []⟩ "quiz").1.canUse = true ∧
    (check_and_consume_credit ⟨true, false, none, [("chat", ⟨false, 1⟩)], some ⟨5, 5⟩, []⟩
        "chat").2 = ⟨true, false, none, [("chat", ⟨false, 1⟩)], some ⟨5, 5⟩, []⟩ :=
  ⟨(check_and_consume_credit_unregistered_feature ⟨true, false, none, [], some ⟨5, 5⟩, []⟩
      "quiz" rfl rfl (Or.inl rfl)).1,
   (check_and_consume_credit_unregistered_feature
      ⟨true, false, none, [("chat", ⟨false, 1⟩)], some ⟨5, 5⟩, []⟩
      "chat" rfl rfl (Or.inr ⟨⟨false, 1⟩, by decide, rfl⟩)).2.2⟩

/-- C10: add_message on a session_id absent from the store is a silent
no-op: the call returns normally and the store (messages and last_activity
included) is exactly unchanged. -/
theorem add_message_missing_session_noop (now : Int) (store : List StudySession)
    (sid : String) (role : Role) (content : String)
    (h : get_session store sid = none) :
    add_message now store sid role content = store := by
  simp [add_message, h]

/-- Witness for C10: appending to the unknown id "ghost" leaves a one-session
store unchanged. -/
theorem add_message_missing_session_noop_witness :
    add_message 5 [⟨"s1", [], 0⟩] "ghost" Role.user "hi" = [⟨"s1", [], 0⟩] :=
  add_message_missing_session_noop 5 [⟨"s1", [], 0⟩] "ghost" Role.user "hi" (by decide)

end Spec2Proof
